import Mathlib

set_option autoImplicit false

/-!
Shallow embedding of the two FastAPI tutorial scripts of this repository,
`01_API/api_tutorial.py` (SQLite-backed CRUD handlers) and `01_API/test.py`
(stateless echo handlers), together with proofs about their route handlers.

Modelling conventions:
* the SQLite file `api_tutorial.db` is a `DB` value: the two tables as lists
  of rows plus the `AUTOINCREMENT` counters;
* an open `sqlite3` connection is a `Conn`: executed-but-uncommitted
  statements act on `pending`, `commit` publishes them, `close` without
  `commit` discards them (SQLite rolls back an open transaction on close);
* `REAL` prices are rational numbers: every claim compares prices only with
  the store's `<=` / `>=`, on which the rationals agree with the ordering of
  finite floating-point values;
* SQLite's `LIKE` operator (no `ESCAPE` clause) is modelled character by
  character: `%` matches any sequence, `_` any single character, and other
  characters compare after ASCII case folding, which is SQLite's documented
  default (`'a' LIKE 'A'` is true).
-/

namespace ApiTutorial

/-- Row of the `items` table: `items(id, name, price, is_offer)`. -/
structure ItemRow where
  id : Int
  name : String
  price : ℚ
  is_offer : Option Bool
  deriving DecidableEq, Repr

/-- Row of the `users` table: `users(id, username, email, full_name)`. -/
structure UserRow where
  id : Int
  username : String
  email : String
  full_name : Option String
  deriving DecidableEq, Repr

/-- The SQLite store `api_tutorial.db`: both tables plus the next
`AUTOINCREMENT` rowid of each table (SQLite never reuses these ids). -/
structure DB where
  items : List ItemRow
  users : List UserRow
  nextItemId : Int
  nextUserId : Int
  deriving DecidableEq, Repr

/-- An open `sqlite3` connection. Statements executed through a cursor act
on `pending`; `commit` publishes `pending`; closing without `commit`
discards it. -/
structure Conn where
  committed : DB
  pending : DB
  deriving DecidableEq, Repr

/-- Eval of `sqlite3.connect(DATABASE)`: a fresh connection onto the store. -/
def Conn.connect (db : DB) : Conn := ⟨db, db⟩

/-- Eval of `conn.commit()`. -/
def Conn.commit (c : Conn) : Conn := { c with committed := c.pending }

/-- Eval of `conn.close()`: the store keeps only committed state. -/
def Conn.close (c : Conn) : DB := c.committed

/-- The `HTTPException` raised by handlers: status code plus detail text. -/
structure HTTPException where
  status_code : Nat
  detail : String
  deriving DecidableEq, Repr

/-- A pydantic `Item` as it appears in responses (`id` optional). -/
structure ItemOut where
  id : Option Int
  name : String
  price : ℚ
  is_offer : Option Bool
  deriving DecidableEq, Repr

/-- A pydantic `Item` as sent in request bodies (`id` left out). -/
structure ItemIn where
  name : String
  price : ℚ
  is_offer : Option Bool
  deriving DecidableEq, Repr

/-- A pydantic `User` as sent in request bodies. -/
structure UserIn where
  username : String
  email : String
  full_name : Option String
  deriving DecidableEq, Repr

/-- A pydantic `User` as it appears in responses. -/
structure UserOut where
  id : Option Int
  username : String
  email : String
  full_name : Option String
  deriving DecidableEq, Repr

/-- Conversion used by the list and search handlers:
`Item(id=row[0], name=row[1], price=row[2], is_offer=...)`. -/
def rowToItem (r : ItemRow) : ItemOut := ⟨some r.id, r.name, r.price, r.is_offer⟩

/-- ASCII case folding as performed by SQLite's `LIKE`: only `A`-`Z` fold. -/
def foldAscii (c : Char) : Char :=
  if 'A' ≤ c ∧ c ≤ 'Z' then Char.ofNat (c.toNat + 32) else c

/-- SQLite `LIKE` pattern matching (default collation, no `ESCAPE`): `%`
matches any sequence of characters, `_` matches exactly one character, and
any other pattern character compares after ASCII case folding. -/
def likeMatch : List Char → List Char → Bool
  | [], s => s.isEmpty
  | p :: ps, s =>
    if p = '%' then s.tails.any fun t => likeMatch ps t
    else if p = '_' then
      match s with
      | [] => false
      | _ :: s => likeMatch ps s
    else
      match s with
      | [] => false
      | c :: s => (foldAscii p == foldAscii c) && likeMatch ps s

/-- Character list `p` starts character list `s`, comparing via `f`. -/
def leadsWith (f : Char → Char) : List Char → List Char → Bool
  | [], _ => true
  | _ :: _, [] => false
  | p :: ps, c :: s => (f p == f c) && leadsWith f ps s

/-- Character list `p` occurs contiguously inside `s`, comparing via `f`;
with `f = fun c => c` this is exact (case-sensitive) substring containment,
with `f = foldAscii` it is ASCII-case-insensitive containment. -/
def containsSub (f : Char → Char) (p s : List Char) : Bool :=
  s.tails.any (leadsWith f p)

/-- The pattern has no `LIKE` metacharacter. -/
def wildcardFree (p : List Char) : Bool :=
  p.all fun c => !(c == '%') && !(c == '_')

/-- Name condition of the `/search/` query: Python's `if name:` adds
`name LIKE ?` with parameter `f"%{name}%"` only when `name` is neither
`None` nor the empty string (both are falsy). -/
def nameCond (name : Option String) (r : ItemRow) : Bool :=
  match name with
  | none => true
  | some n => if n = "" then true else likeMatch ('%' :: (n.data ++ ['%'])) r.name.data

/-- Minimum-price condition of `/search/`: `price >= ?` added only when
`price_min is not None`. -/
def minCond (price_min : Option ℚ) (r : ItemRow) : Bool :=
  match price_min with
  | none => true
  | some m => decide (m ≤ r.price)

/-- Maximum-price condition of `/search/`: `price <= ?` added only when
`price_max is not None`. -/
def maxCond (price_max : Option ℚ) (r : ItemRow) : Bool :=
  match price_max with
  | none => true
  | some m => decide (r.price ≤ m)

/-- The assembled `WHERE 1=1 AND ... AND ...` clause of `search_items`. -/
def searchPred (name : Option String) (price_min price_max : Option ℚ)
    (r : ItemRow) : Bool :=
  nameCond name r && minCond price_min r && maxCond price_max r

/-- Rows produced by the `SELECT` of `search_items`. -/
def searchRows (name : Option String) (price_min price_max : Option ℚ)
    (db : DB) : List ItemRow :=
  db.items.filter (searchPred name price_min price_max)

/-- Response shape of `GET /search/`: rows, echo of the filters, count. -/
structure SearchResponse where
  items : List ItemOut
  filter_name : Option String
  filter_price_min : Option ℚ
  filter_price_max : Option ℚ
  count : Nat
  deriving DecidableEq, Repr

/-- Handler of `GET /search/` (`search_items` in `api_tutorial.py`): builds
the optional `LIKE` / `>=` / `<=` conditions joined by `AND`, runs the
`SELECT`, and returns matching rows plus filter echo and count. -/
def search_items (name : Option String) (price_min price_max : Option ℚ)
    (db : DB) : SearchResponse :=
  let conn := Conn.connect db
  let rows := searchRows name price_min price_max conn.pending
  ⟨rows.map rowToItem, name, price_min, price_max, (rows.map rowToItem).length⟩

/-- Response shape of `GET /items/`. -/
structure ListItemsResponse where
  items : List ItemOut
  count : Nat
  deriving DecidableEq, Repr

/-- Handler of `GET /items/` (`list_items`): `SELECT` of every row. -/
def list_items (db : DB) : ListItemsResponse :=
  let conn := Conn.connect db
  let rows := conn.pending.items
  ⟨rows.map rowToItem, (rows.map rowToItem).length⟩

/-- Response shape of `POST /items/`. -/
structure CreateItemResponse where
  item : ItemOut
  message : String
  deriving DecidableEq, Repr

/-- Handler of `POST /items/` (`create_item`): `INSERT` into `items`,
`cursor.lastrowid` supplies the store-assigned id, then `commit`. -/
def create_item (item : ItemIn) (db : DB) : DB × CreateItemResponse :=
  let conn := Conn.connect db
  let newRow : ItemRow := ⟨conn.pending.nextItemId, item.name, item.price, item.is_offer⟩
  let conn : Conn := { conn with pending := { conn.pending with
    items := conn.pending.items ++ [newRow],
    nextItemId := conn.pending.nextItemId + 1 } }
  let item_id := newRow.id
  let conn := conn.commit
  (conn.close, ⟨⟨some item_id, item.name, item.price, item.is_offer⟩, "Item created successfully"⟩)

/-- Response shape of `PUT /items/{item_id}`. -/
structure UpdateItemResponse where
  item_id : Int
  item : ItemIn
  message : String
  deriving DecidableEq, Repr

/-- Handler of `PUT /items/{item_id}` (`update_item`): `UPDATE ... WHERE
id = ?`; an affected-row count (`cursor.rowcount`) of zero raises a 404 and
closes the connection without committing, otherwise commit and echo. -/
def update_item (item_id : Int) (item : ItemIn) (db : DB) :
    DB × Except HTTPException UpdateItemResponse :=
  let conn := Conn.connect db
  let conn : Conn := { conn with pending := { conn.pending with
    items := conn.pending.items.map fun r =>
      if r.id = item_id then
        { r with name := item.name, price := item.price, is_offer := item.is_offer }
      else r } }
  let rowcount := db.items.countP fun r => decide (r.id = item_id)
  if rowcount = 0 then
    (conn.close, Except.error ⟨404, "Item not found"⟩)
  else
    (conn.commit.close, Except.ok ⟨item_id, item, "Item updated"⟩)

/-- Response shape carrying only a message (`DELETE /items/{item_id}`). -/
structure MessageResponse where
  message : String
  deriving DecidableEq, Repr

/-- Handler of `DELETE /items/{item_id}` (`delete_item`): `DELETE ... WHERE
id = ?`; an affected-row count of zero raises a 404 and closes without
committing, otherwise commit. -/
def delete_item (item_id : Int) (db : DB) :
    DB × Except HTTPException MessageResponse :=
  let conn := Conn.connect db
  let conn : Conn := { conn with pending := { conn.pending with
    items := conn.pending.items.filter fun r => !decide (r.id = item_id) } }
  let rowcount := db.items.countP fun r => decide (r.id = item_id)
  if rowcount = 0 then
    (conn.close, Except.error ⟨404, "Item not found"⟩)
  else
    (conn.commit.close, Except.ok ⟨"Item " ++ toString item_id ++ " deleted"⟩)

/-- Response shape of `POST /users/`. -/
structure CreateUserResponse where
  user : UserOut
  message : String
  deriving DecidableEq, Repr

/-- Handler of `POST /users/` (`create_user`): `INSERT` into `users`; the
`UNIQUE` constraints on `username` and `email` raise `IntegrityError` when a
stored user already carries either value, which the handler maps to a 400
after closing without commit; otherwise commit and echo with the
store-assigned id. -/
def create_user (user : UserIn) (db : DB) :
    DB × Except HTTPException CreateUserResponse :=
  let conn := Conn.connect db
  if conn.pending.users.any (fun u =>
      decide (u.username = user.username) || decide (u.email = user.email)) then
    (conn.close, Except.error ⟨400, "Username or email already exists"⟩)
  else
    let newRow : UserRow := ⟨conn.pending.nextUserId, user.username, user.email, user.full_name⟩
    let conn : Conn := { conn with pending := { conn.pending with
      users := conn.pending.users ++ [newRow],
      nextUserId := conn.pending.nextUserId + 1 } }
    let user_id := newRow.id
    let conn := conn.commit
    (conn.close,
     Except.ok ⟨⟨some user_id, user.username, user.email, user.full_name⟩, "User created"⟩)

/-- Response shape of `GET /items/{item_id}/status`. -/
structure StatusResponse where
  item_id : Int
  status : String
  deriving DecidableEq, Repr

/-- Handler of `GET /items/{item_id}/status` (`read_item_with_status`):
`SELECT id ... WHERE id = ?`, a 404 when `fetchone()` is `None`. -/
def read_item_with_status (item_id : Int) (db : DB) :
    Except HTTPException StatusResponse :=
  let conn := Conn.connect db
  let present := conn.pending.items.any fun r => decide (r.id = item_id)
  if present then Except.ok ⟨item_id, "found"⟩
  else Except.error ⟨404, "Item not found"⟩

/-- The five dummy items of `init_db`: `(name, price, is_offer)`. -/
def dummy_items : List (String × ℚ × Option Bool) :=
  [("Laptop", 99999/100, some true),
   ("Mouse", 2550/100, some false),
   ("Keyboard", 7500/100, some true),
   ("Monitor", 29999/100, some false),
   ("Headphones", 14999/100, some true)]

/-- The three dummy users of `init_db`: `(username, email, full_name)`. -/
def dummy_users : List (String × String × Option String) :=
  [("john_doe", "john@example.com", some "John Doe"),
   ("jane_smith", "jane@example.com", some "Jane Smith"),
   ("alice_wonder", "alice@example.com", some "Alice Wonderland")]

/-- Eval of `executemany("INSERT INTO items ...")`: each insert consumes the
next `AUTOINCREMENT` id. -/
def insertItems (db : DB) (rows : List (String × ℚ × Option Bool)) : DB :=
  rows.foldl (fun db t =>
    { db with items := db.items ++ [⟨db.nextItemId, t.1, t.2.1, t.2.2⟩],
              nextItemId := db.nextItemId + 1 }) db

/-- Eval of `executemany("INSERT INTO users ...")`. -/
def insertUsers (db : DB) (rows : List (String × String × Option String)) : DB :=
  rows.foldl (fun db t =>
    { db with users := db.users ++ [⟨db.nextUserId, t.1, t.2.1, t.2.2⟩],
              nextUserId := db.nextUserId + 1 }) db

/-- Startup routine `init_db`: `CREATE TABLE IF NOT EXISTS` (a no-op on an
existing store), then each table is seeded with its dummy rows exactly when
its `SELECT COUNT(*)` returns 0, then commit. -/
def init_db (db : DB) : DB :=
  let db1 := if db.items.length = 0 then insertItems db dummy_items else db
  let db2 := if db1.users.length = 0 then insertUsers db1 dummy_users else db1
  db2

/-- A fresh store as it stands after the first startup: the dummy rows with
their store-assigned ids (`AUTOINCREMENT` starts at rowid 1). The theorem
`seedDb_eq_first_startup` below checks this against `init_db`. -/
def seedDb : DB :=
  ⟨[⟨1, "Laptop", 99999/100, some true⟩,
    ⟨2, "Mouse", 2550/100, some false⟩,
    ⟨3, "Keyboard", 7500/100, some true⟩,
    ⟨4, "Monitor", 29999/100, some false⟩,
    ⟨5, "Headphones", 14999/100, some true⟩],
   [⟨1, "john_doe", "john@example.com", some "John Doe"⟩,
    ⟨2, "jane_smith", "jane@example.com", some "Jane Smith"⟩,
    ⟨3, "alice_wonder", "alice@example.com", some "Alice Wonderland"⟩],
   6, 4⟩

end ApiTutorial

namespace TestPy

/-- A pydantic `Item` of `test.py` (no id field there). -/
structure Item where
  name : String
  price : ℚ
  is_offer : Option Bool
  deriving DecidableEq, Repr

/-- A pydantic `User` of `test.py` (no id field there). -/
structure User where
  username : String
  email : String
  full_name : Option String
  deriving DecidableEq, Repr

/-- Response of `GET /items/{item_id}` in `test.py`. -/
structure ReadItemResponse where
  item_id : Int
  q : Option String
  deriving DecidableEq, Repr

/-- Handler of `GET /items/{item_id}` in `test.py` (`read_item`): echoes the
path parameter and the optional query `q` unchanged. -/
def read_item (item_id : Int) (q : Option String) : ReadItemResponse :=
  ⟨item_id, q⟩

/-- Response of `POST /items/` in `test.py`. -/
structure CreateItemResponse where
  item : Item
  message : String
  deriving DecidableEq, Repr

/-- Handler of `POST /items/` in `test.py`: pure echo, no store. -/
def create_item (item : Item) : CreateItemResponse :=
  ⟨item, "Item created successfully"⟩

/-- Response of `PUT /items/{item_id}` in `test.py`. -/
structure UpdateItemResponse where
  item_id : Int
  item : Item
  message : String
  deriving DecidableEq, Repr

/-- Handler of `PUT /items/{item_id}` in `test.py`: pure echo, no store. -/
def update_item (item_id : Int) (item : Item) : UpdateItemResponse :=
  ⟨item_id, item, "Item updated"⟩

/-- Response of `DELETE /items/{item_id}` in `test.py`. -/
structure MessageResponse where
  message : String
  deriving DecidableEq, Repr

/-- Handler of `DELETE /items/{item_id}` in `test.py`: pure message, the
f-string interpolating the id. -/
def delete_item (item_id : Int) : MessageResponse :=
  ⟨"Item " ++ toString item_id ++ " deleted"⟩

/-- Response of `POST /users/` in `test.py`. -/
structure CreateUserResponse where
  user : User
  message : String
  deriving DecidableEq, Repr

/-- Handler of `POST /users/` in `test.py`: pure echo, no store. -/
def create_user (user : User) : CreateUserResponse :=
  ⟨user, "User created"⟩

end TestPy

/-- HTTP method of a route decorator. -/
inductive Method
  | get
  | post
  | put
  | delete
  deriving DecidableEq, Repr

/-- The route decorators of `api_tutorial.py` in source order. The second
`@app.get("/items/")` is the duplicated `list_items` definition; no
`GET /items/{item_id}` fetch route is ever registered there (the handler
body intended for it is unreachable code after the duplicate's `return`). -/
def apiTutorialRoutes : List (Method × String) :=
  [(Method.get, "/"),
   (Method.get, "/items/"),
   (Method.get, "/items/"),
   (Method.post, "/items/"),
   (Method.put, "/items/{item_id}"),
   (Method.delete, "/items/{item_id}"),
   (Method.get, "/search/"),
   (Method.post, "/users/"),
   (Method.get, "/async-example/"),
   (Method.get, "/items/{item_id}/status")]

/-- The route decorators of `test.py` in source order. -/
def testPyRoutes : List (Method × String) :=
  [(Method.get, "/"),
   (Method.get, "/items/{item_id}"),
   (Method.post, "/items/"),
   (Method.put, "/items/{item_id}"),
   (Method.delete, "/items/{item_id}"),
   (Method.get, "/search/"),
   (Method.post, "/users/"),
   (Method.get, "/async-example/"),
   (Method.get, "/items/{item_id}/status")]

deriving instance DecidableEq for Except

namespace ApiTutorial

theorem seedDb_eq_first_startup : seedDb = init_db ⟨[], [], 1, 1⟩ := by rfl

theorem likeMatch_pct_nil (s : List Char) : likeMatch ['%'] s = true := by
  have h : ([] : List Char) ∈ s.tails := (List.mem_tails _ _).mpr List.nil_suffix
  have hrw : likeMatch ['%'] s = s.tails.any fun t => likeMatch [] t := by
    simp [likeMatch]
  rw [hrw, List.any_eq_true]
  exact ⟨[], h, rfl⟩

theorem likeMatch_append_pct (p : List Char) (hp : wildcardFree p = true) (s : List Char) :
    likeMatch (p ++ ['%']) s = leadsWith foldAscii p s := by
  induction p generalizing s with
  | nil => simpa [leadsWith] using likeMatch_pct_nil s
  | cons c p ih =>
    rw [wildcardFree, List.all_cons, Bool.and_eq_true, Bool.and_eq_true,
      Bool.not_eq_true', Bool.not_eq_true', beq_eq_false_iff_ne, beq_eq_false_iff_ne] at hp
    obtain ⟨⟨hc1, hc2⟩, hp⟩ := hp
    cases s with
    | nil => simp [likeMatch, leadsWith, hc1, hc2]
    | cons d s => simp [likeMatch, leadsWith, hc1, hc2, ih hp]

theorem likeMatch_contains_ci (p : List Char) (hp : wildcardFree p = true) (s : List Char) :
    likeMatch ('%' :: (p ++ ['%'])) s = containsSub foldAscii p s := by
  have h : (fun t => likeMatch (p ++ ['%']) t) = leadsWith foldAscii p :=
    funext fun t => likeMatch_append_pct p hp t
  have hrw : likeMatch ('%' :: (p ++ ['%'])) s
      = s.tails.any fun t => likeMatch (p ++ ['%']) t := by
    simp [likeMatch]
  rw [hrw, containsSub, h]

theorem minCond_iff (pm : Option ℚ) (r : ItemRow) :
    minCond pm r = true ↔ ∀ m, pm = some m → m ≤ r.price := by
  cases pm <;> simp [minCond]

theorem maxCond_iff (pm : Option ℚ) (r : ItemRow) :
    maxCond pm r = true ↔ ∀ m, pm = some m → r.price ≤ m := by
  cases pm <;> simp [maxCond]

/-- C1: each of the three optional filters of `GET /search/` (name
substring, minimum price, maximum price), when present, narrows the result
set conjunctively; the price bounds are the inclusive comparisons
`price >= price_min` and `price <= price_max`; and with no filter supplied
every row of the `items` table is returned. -/
theorem search_conjunctive_inclusive (name : Option String)
    (pmin pmax : Option ℚ) (db : DB) :
    (search_items none none none db).items = db.items.map rowToItem ∧
    (search_items name pmin pmax db).items
      = (searchRows name pmin pmax db).map rowToItem ∧
    (search_items name pmin pmax db).count = (searchRows name pmin pmax db).length ∧
    (∀ r, r ∈ searchRows name pmin pmax db ↔
      r ∈ db.items ∧ nameCond name r = true ∧
      (∀ m, pmin = some m → m ≤ r.price) ∧
      (∀ m, pmax = some m → r.price ≤ m)) ∧
    (searchRows name pmin pmax db).Sublist (searchRows none pmin pmax db) ∧
    (searchRows name pmin pmax db).Sublist (searchRows name none pmax db) ∧
    (searchRows name pmin pmax db).Sublist (searchRows name pmin none db) := by
  refine ⟨?_, rfl, by simp [search_items, Conn.connect], ?_, ?_, ?_, ?_⟩
  · have h : List.filter (searchPred none none none) db.items = db.items :=
      List.filter_eq_self.mpr fun r _ => by simp [searchPred, nameCond, minCond, maxCond]
    show (searchRows none none none db).map rowToItem = db.items.map rowToItem
    rw [searchRows, h]
  · intro r
    rw [searchRows, List.mem_filter, searchPred, Bool.and_eq_true, Bool.and_eq_true,
      minCond_iff, maxCond_iff]
    tauto
  · simp only [searchRows]
    exact List.monotone_filter_right _ fun r h => by
      rw [searchPred, Bool.and_eq_true, Bool.and_eq_true] at h ⊢
      exact ⟨⟨rfl, h.1.2⟩, h.2⟩
  · simp only [searchRows]
    exact List.monotone_filter_right _ fun r h => by
      rw [searchPred, Bool.and_eq_true, Bool.and_eq_true] at h ⊢
      exact ⟨⟨h.1.1, rfl⟩, h.2⟩
  · simp only [searchRows]
    exact List.monotone_filter_right _ fun r h => by
      rw [searchPred, Bool.and_eq_true, Bool.and_eq_true] at h ⊢
      exact ⟨⟨h.1.1, h.1.2⟩, rfl⟩

/-- C1 witness: the search with no filters on the seeded store returns all
five rows, with the row count equal to the result length. -/
theorem search_conjunctive_inclusive_witness :
    (search_items none none none seedDb).items = seedDb.items.map rowToItem :=
  (search_conjunctive_inclusive none none none seedDb).1

/-- C2 (amended): for a supplied non-empty name filter free of the `LIKE`
wildcards `%` and `_`, the name condition of `GET /search/` holds of a row
exactly when the filter string is an ASCII-case-insensitive substring of
the row's name; the match is case-insensitive, not case-sensitive, because
SQLite's `LIKE` folds ASCII case by default. -/
theorem nameCond_ci_substring (n : String) (r : ItemRow)
    (hne : ¬(n = "")) (hwf : wildcardFree n.data = true) :
    nameCond (some n) r = containsSub foldAscii n.data r.name.data := by
  simp only [nameCond]
  rw [if_neg hne]
  exact likeMatch_contains_ci n.data hwf r.name.data

/-- C2 witness: the filter `"top"` against the seeded row `"Laptop"`. -/
theorem nameCond_ci_substring_witness :
    nameCond (some "top") ⟨1, "Laptop", 99999/100, some true⟩
      = containsSub foldAscii "top".data "Laptop".data :=
  nameCond_ci_substring "top" ⟨1, "Laptop", 99999/100, some true⟩ (by decide) (by decide)

/-- C2 counterexample: the stored row `"Laptop"` and the supplied filter
`"laptop"`: the search's name filter matches the row (the row is returned
by the search), yet `"laptop"` is not a case-sensitive substring of
`"Laptop"`, refuting the claimed iff at this input. -/
theorem nameCond_not_cs_substring :
    nameCond (some "laptop") ⟨1, "Laptop", 99999/100, some true⟩ = true ∧
    searchRows (some "laptop") none none seedDb
      = [⟨1, "Laptop", 99999/100, some true⟩] ∧
    containsSub (fun c => c) "laptop".data "Laptop".data = false := by
  refine ⟨by decide, by rfl, by decide⟩

/-- C3: for an `item_id` with no row in `items`, `PUT /items/{item_id}` and
`DELETE /items/{item_id}` each fail with the 404 `"Item not found"` error,
and the affected-row count of their statements is zero exactly when the id
is absent. -/
theorem update_delete_absent_404 (item_id : Int) (item : ItemIn) (db : DB)
    (habs : ∀ r ∈ db.items, r.id ≠ item_id) :
    (update_item item_id item db).2 = Except.error ⟨404, "Item not found"⟩ ∧
    (delete_item item_id db).2 = Except.error ⟨404, "Item not found"⟩ ∧
    ((db.items.countP fun r => decide (r.id = item_id)) = 0 ↔
      ∀ r ∈ db.items, r.id ≠ item_id) := by
  have hc : (db.items.countP fun r => decide (r.id = item_id)) = 0 ↔
      ∀ r ∈ db.items, r.id ≠ item_id := by
    rw [List.countP_eq_zero]
    simp
  have h0 : (db.items.countP fun r => decide (r.id = item_id)) = 0 := hc.mpr habs
  refine ⟨?_, ?_, hc⟩
  · simp [update_item, h0, Conn.connect, Conn.close]
  · simp [delete_item, h0, Conn.connect, Conn.close]

/-- C3 witness: id 999 is absent from the seeded store; both mutations
return the 404 error. -/
theorem update_delete_absent_404_witness :
    (update_item 999 ⟨"X", 1, none⟩ seedDb).2 = Except.error ⟨404, "Item not found"⟩ ∧
    (delete_item 999 seedDb).2 = Except.error ⟨404, "Item not found"⟩ :=
  ⟨(update_delete_absent_404 999 ⟨"X", 1, none⟩ seedDb (by decide)).1,
   (update_delete_absent_404 999 ⟨"X", 1, none⟩ seedDb (by decide)).2.1⟩

/-- C9: when `PUT /items/{item_id}` or `DELETE /items/{item_id}` fails with
the not-found error, the handler closes the connection without committing,
so the store it returns is exactly the store it was given. -/
theorem update_delete_error_frame (item_id : Int) (item : ItemIn) (db : DB) :
    (∀ e, (update_item item_id item db).2 = Except.error e →
      (update_item item_id item db).1 = db) ∧
    (∀ e, (delete_item item_id db).2 = Except.error e →
      (delete_item item_id db).1 = db) := by
  constructor
  · intro e he
    by_cases h0 : (db.items.countP fun r => decide (r.id = item_id)) = 0
    · simp [update_item, h0, Conn.connect, Conn.close]
    · exfalso
      simp [update_item, h0, Conn.connect, Conn.commit, Conn.close] at he
  · intro e he
    by_cases h0 : (db.items.countP fun r => decide (r.id = item_id)) = 0
    · simp [delete_item, h0, Conn.connect, Conn.close]
    · exfalso
      simp [delete_item, h0, Conn.connect, Conn.commit, Conn.close] at he

/-- C9 witness: the failing update and delete at absent id 999 hand back
the seeded store untouched. -/
theorem update_delete_error_frame_witness :
    (update_item 999 ⟨"X", 1, none⟩ seedDb).1 = seedDb ∧
    (delete_item 999 seedDb).1 = seedDb :=
  ⟨(update_delete_error_frame 999 ⟨"X", 1, none⟩ seedDb).1
      ⟨404, "Item not found"⟩ (by decide),
   (update_delete_error_frame 999 ⟨"X", 1, none⟩ seedDb).2
      ⟨404, "Item not found"⟩ (by decide)⟩

/-- C4: a `POST /users/` whose username or email is already stored fails
with the 400 conflict error and leaves the store unchanged, while a request
with both username and email fresh succeeds, stores the user, and echoes it
with the store-assigned id. -/
theorem create_user_conflict_fresh (user : UserIn) (db : DB) :
    ((∃ u ∈ db.users, u.username = user.username ∨ u.email = user.email) →
      create_user user db
        = (db, Except.error ⟨400, "Username or email already exists"⟩)) ∧
    ((∀ u ∈ db.users, u.username ≠ user.username ∧ u.email ≠ user.email) →
      (create_user user db).2 = Except.ok
        ⟨⟨some db.nextUserId, user.username, user.email, user.full_name⟩, "User created"⟩ ∧
      (create_user user db).1.users
        = db.users ++ [⟨db.nextUserId, user.username, user.email, user.full_name⟩]) := by
  constructor
  · intro hex
    have hany : (db.users.any fun u =>
        decide (u.username = user.username) || decide (u.email = user.email)) = true := by
      rw [List.any_eq_true]
      obtain ⟨u, hu, hor⟩ := hex
      exact ⟨u, hu, by simpa using hor⟩
    simp [create_user, Conn.connect, Conn.close, hany]
  · intro hall
    have hany : (db.users.any fun u =>
        decide (u.username = user.username) || decide (u.email = user.email)) = false := by
      rw [List.any_eq_false]
      intro u hu
      simp [(hall u hu).1, (hall u hu).2]
    constructor <;> simp [create_user, Conn.connect, Conn.close, Conn.commit, hany]

/-- C4 witness: on the seeded store, reusing username `"john_doe"` yields
the 400 conflict, while a fresh username and email succeed with id 4. -/
theorem create_user_conflict_fresh_witness :
    create_user ⟨"john_doe", "new@example.com", none⟩ seedDb
      = (seedDb, Except.error ⟨400, "Username or email already exists"⟩) ∧
    (create_user ⟨"bob", "bob@example.com", none⟩ seedDb).2 = Except.ok
      ⟨⟨some 4, "bob", "bob@example.com", none⟩, "User created"⟩ :=
  ⟨(create_user_conflict_fresh ⟨"john_doe", "new@example.com", none⟩ seedDb).1
      ⟨⟨1, "john_doe", "john@example.com", some "John Doe"⟩,
       List.mem_cons_self _ _, Or.inl rfl⟩,
   ((create_user_conflict_fresh ⟨"bob", "bob@example.com", none⟩ seedDb).2 (by decide)).1⟩

/-- C6: `GET /items/{item_id}/status` returns the 404 not-found error
exactly when no row of `items` carries the id, and the found status exactly
when one does. -/
theorem read_item_with_status_iff (item_id : Int) (db : DB) :
    (read_item_with_status item_id db = Except.error ⟨404, "Item not found"⟩ ↔
      ∀ r ∈ db.items, r.id ≠ item_id) ∧
    (read_item_with_status item_id db = Except.ok ⟨item_id, "found"⟩ ↔
      ∃ r ∈ db.items, r.id = item_id) := by
  by_cases hp : (db.items.any fun r => decide (r.id = item_id)) = true
  · have hex : ∃ r ∈ db.items, r.id = item_id := by simpa using hp
    have hres : read_item_with_status item_id db = Except.ok ⟨item_id, "found"⟩ := by
      simp [read_item_with_status, Conn.connect, hp]
    rw [hres]
    obtain ⟨r, hr, hid⟩ := hex
    refine ⟨⟨fun h => by simp at h, fun hall => (hall r hr hid).elim⟩,
      ⟨fun _ => ⟨r, hr, hid⟩, fun _ => rfl⟩⟩
  · simp only [Bool.not_eq_true] at hp
    have hnone : ∀ r ∈ db.items, r.id ≠ item_id := by
      have := List.any_eq_false.mp hp
      intro r hr
      simpa using this r hr
    have hres : read_item_with_status item_id db
        = Except.error ⟨404, "Item not found"⟩ := by
      simp [read_item_with_status, Conn.connect, hp]
    rw [hres]
    refine ⟨⟨fun _ => hnone, fun _ => rfl⟩,
      ⟨fun h => by simp at h, fun hex => ?_⟩⟩
    obtain ⟨r, hr, hid⟩ := hex
    exact (hnone r hr hid).elim

/-- C6 witness: id 999 is absent from the seeded store and gets the 404;
id 1 is present and gets the found status. -/
theorem read_item_with_status_iff_witness :
    read_item_with_status 999 seedDb = Except.error ⟨404, "Item not found"⟩ ∧
    read_item_with_status 1 seedDb = Except.ok ⟨1, "found"⟩ :=
  ⟨(read_item_with_status_iff 999 seedDb).1.mpr (by decide),
   (read_item_with_status_iff 1 seedDb).2.mpr
     ⟨⟨1, "Laptop", 99999/100, some true⟩, List.mem_cons_self _ _, rfl⟩⟩

/-- C7: `POST /items/` stores the new row under the next `AUTOINCREMENT`
id, which no previously stored row carries, echoes the created record with
that id, and a subsequent `GET /items/` listing contains it; the freshness
invariant on ids (every stored id below the counter) is preserved. -/
theorem create_item_fresh_listed (item : ItemIn) (db : DB)
    (hinv : ∀ r ∈ db.items, r.id < db.nextItemId) :
    (create_item item db).2.item.id = some db.nextItemId ∧
    (∀ r ∈ db.items, r.id ≠ db.nextItemId) ∧
    rowToItem ⟨db.nextItemId, item.name, item.price, item.is_offer⟩
      ∈ (list_items (create_item item db).1).items ∧
    (∀ r ∈ (create_item item db).1.items,
      r.id < (create_item item db).1.nextItemId) := by
  refine ⟨rfl, fun r hr => ne_of_lt (hinv r hr), ?_, ?_⟩
  · exact List.mem_map_of_mem rowToItem
      (List.mem_append_right db.items (List.mem_singleton_self _))
  · intro r hr
    have hr' : r ∈ db.items ++ [(⟨db.nextItemId, item.name, item.price, item.is_offer⟩ : ItemRow)] := hr
    show r.id < db.nextItemId + 1
    rcases List.mem_append.mp hr' with h | h
    · exact lt_trans (hinv r h) (by omega)
    · rw [List.mem_singleton.mp h]
      show db.nextItemId < db.nextItemId + 1
      omega

/-- C7 witness: creating an item on the seeded store assigns the fresh id
6, which none of the five seeded rows carries. -/
theorem create_item_fresh_listed_witness :
    (create_item ⟨"Webcam", 50, none⟩ seedDb).2.item.id = some 6 ∧
    (∀ r ∈ seedDb.items, r.id ≠ 6) :=
  ⟨(create_item_fresh_listed ⟨"Webcam", 50, none⟩ seedDb (by decide)).1,
   (create_item_fresh_listed ⟨"Webcam", 50, none⟩ seedDb (by decide)).2.1⟩

theorem insertUsers_items (rows : List (String × String × Option String)) :
    ∀ d : DB, (insertUsers d rows).items = d.items := by
  induction rows with
  | nil => intro d; rfl
  | cons t rows ih => intro d; exact ih _

theorem insertItems_users (rows : List (String × ℚ × Option Bool)) :
    ∀ d : DB, (insertItems d rows).users = d.users := by
  induction rows with
  | nil => intro d; rfl
  | cons t rows ih => intro d; exact ih _

theorem insertItems_items_map (rows : List (String × ℚ × Option Bool)) :
    ∀ d : DB, ((insertItems d rows).items.map fun r => (r.name, r.price, r.is_offer))
      = (d.items.map fun r => (r.name, r.price, r.is_offer)) ++ rows := by
  induction rows with
  | nil => intro d; simp [insertItems]
  | cons t rows ih =>
    intro d
    have h := ih { d with
      items := d.items ++ [⟨d.nextItemId, t.1, t.2.1, t.2.2⟩],
      nextItemId := d.nextItemId + 1 }
    rw [show insertItems d (t :: rows) = insertItems { d with
      items := d.items ++ [⟨d.nextItemId, t.1, t.2.1, t.2.2⟩],
      nextItemId := d.nextItemId + 1 } rows from rfl, h]
    simp

theorem insertUsers_users_map (rows : List (String × String × Option String)) :
    ∀ d : DB, ((insertUsers d rows).users.map fun u => (u.username, u.email, u.full_name))
      = (d.users.map fun u => (u.username, u.email, u.full_name)) ++ rows := by
  induction rows with
  | nil => intro d; simp [insertUsers]
  | cons t rows ih =>
    intro d
    have h := ih { d with
      users := d.users ++ [⟨d.nextUserId, t.1, t.2.1, t.2.2⟩],
      nextUserId := d.nextUserId + 1 }
    rw [show insertUsers d (t :: rows) = insertUsers { d with
      users := d.users ++ [⟨d.nextUserId, t.1, t.2.1, t.2.2⟩],
      nextUserId := d.nextUserId + 1 } rows from rfl, h]
    simp

theorem init_db_items_of_empty (db : DB) (h : db.items = []) :
    (init_db db).items = (insertItems db dummy_items).items := by
  have hi : db.items.length = 0 := by simp [h]
  simp only [init_db, hi, ite_true]
  by_cases hu : (insertItems db dummy_items).users.length = 0
  · simp [hu, insertUsers_items]
  · simp [hu]

theorem init_db_items_of_nonempty (db : DB) (h : ¬(db.items = [])) :
    (init_db db).items = db.items := by
  have hi : ¬(db.items.length = 0) := fun hl => h (List.length_eq_zero.mp hl)
  simp only [init_db, hi, ite_false]
  by_cases hu : db.users.length = 0
  · simp [hu, insertUsers_items]
  · simp [hu]

theorem init_db_users_of_nonempty (db : DB) (h : ¬(db.users = [])) :
    (init_db db).users = db.users := by
  by_cases hi : db.items.length = 0
  · have h1 : (insertItems db dummy_items).users = db.users := insertItems_users _ _
    simp only [init_db, hi, ite_true]
    rw [if_neg fun hl => h (by rw [← h1]; exact List.length_eq_zero.mp hl)]
    exact h1
  · simp only [init_db, hi, ite_false]
    rw [if_neg fun hl => h (List.length_eq_zero.mp hl)]

theorem init_db_items_map_of_empty (db : DB) (h : db.items = []) :
    ((init_db db).items.map fun r => (r.name, r.price, r.is_offer)) = dummy_items := by
  rw [init_db_items_of_empty db h, insertItems_items_map, h]
  simp

theorem init_db_users_map_of_empty (db : DB) (h : db.users = []) :
    ((init_db db).users.map fun u => (u.username, u.email, u.full_name)) = dummy_users := by
  by_cases hi : db.items.length = 0
  · have h1 : (insertItems db dummy_items).users = [] := by
      rw [insertItems_users]; exact h
    simp only [init_db, hi, ite_true]
    rw [if_pos (by simp [h1]), insertUsers_users_map, h1]
    simp
  · simp only [init_db, hi, ite_false]
    rw [if_pos (by simp [h]), insertUsers_users_map, h]
    simp

theorem init_db_items_ne_nil (db : DB) : (init_db db).items ≠ [] := by
  by_cases h : db.items = []
  · intro hnil
    have hm := init_db_items_map_of_empty db h
    rw [hnil] at hm
    simp [dummy_items] at hm
  · rw [init_db_items_of_nonempty db h]
    exact h

theorem init_db_users_ne_nil (db : DB) : (init_db db).users ≠ [] := by
  by_cases h : db.users = []
  · intro hnil
    have hm := init_db_users_map_of_empty db h
    rw [hnil] at hm
    simp [dummy_users] at hm
  · rw [init_db_users_of_nonempty db h]
    exact h

/-- C8: `init_db` seeds the five dummy items and the three dummy users only
into an empty table; a non-empty table keeps its rows unchanged, and hence
initializing twice equals initializing once. -/
theorem init_db_seed_behavior (db : DB) :
    (db.items ≠ [] → (init_db db).items = db.items) ∧
    (db.users ≠ [] → (init_db db).users = db.users) ∧
    (db.items = [] →
      ((init_db db).items.map fun r => (r.name, r.price, r.is_offer)) = dummy_items) ∧
    (db.users = [] →
      ((init_db db).users.map fun u => (u.username, u.email, u.full_name)) = dummy_users) ∧
    init_db (init_db db) = init_db db := by
  have hfix : ∀ d : DB, d.items ≠ [] → d.users ≠ [] → init_db d = d := by
    intro d h1 h2
    have hi : ¬(d.items.length = 0) := fun hl => h1 (List.length_eq_zero.mp hl)
    have hu : ¬(d.users.length = 0) := fun hl => h2 (List.length_eq_zero.mp hl)
    simp [init_db, hi, hu]
  exact ⟨init_db_items_of_nonempty db, init_db_users_of_nonempty db,
    init_db_items_map_of_empty db, init_db_users_map_of_empty db,
    hfix (init_db db) (init_db_items_ne_nil db) (init_db_users_ne_nil db)⟩

/-- C8 witness: a second initialization of the freshly seeded empty store
is a no-op, and the seeded non-empty store keeps its items. -/
theorem init_db_seed_behavior_witness :
    init_db (init_db ⟨[], [], 1, 1⟩) = init_db ⟨[], [], 1, 1⟩ ∧
    (init_db seedDb).items = seedDb.items :=
  ⟨(init_db_seed_behavior ⟨[], [], 1, 1⟩).2.2.2.2,
   (init_db_seed_behavior seedDb).1 (by decide)⟩

end ApiTutorial

/-- C5 (code evaluation): `api_tutorial.py` registers no `GET
/items/{item_id}` fetch route — its decorator list carries the duplicated
`GET /items/` of the second `list_items` instead, leaving the intended
fetch handler body unreachable after the duplicate's `return` — whereas
`test.py` registers the fetch route and its handler `read_item` echoes the
optional query `q` unchanged alongside the id. -/
theorem fetch_route_missing_in_api_tutorial :
    (Method.get, "/items/{item_id}") ∉ apiTutorialRoutes ∧
    (Method.get, "/items/{item_id}") ∈ testPyRoutes ∧
    (∀ (item_id : Int) (q : Option String),
      (TestPy.read_item item_id q).q = q ∧
      (TestPy.read_item item_id q).item_id = item_id) := by
  refine ⟨by decide, by decide, fun item_id q => ⟨rfl, rfl⟩⟩

/-- C5 witness: the echo of `q` at a concrete request. -/
theorem fetch_route_missing_in_api_tutorial_witness :
    (TestPy.read_item 123 (some "search")).q = some "search" :=
  (fetch_route_missing_in_api_tutorial.2.2 123 (some "search")).1

/-- C10: the mutating handlers of `test.py` are pure total functions of
their arguments alone — their types take no store and return no error —
and each returns exactly the fixed success message echoing its input. -/
theorem testpy_mutating_handlers_pure (item : TestPy.Item) (item_id : Int)
    (user : TestPy.User) :
    TestPy.create_item item = ⟨item, "Item created successfully"⟩ ∧
    TestPy.update_item item_id item = ⟨item_id, item, "Item updated"⟩ ∧
    TestPy.delete_item item_id = ⟨"Item " ++ toString item_id ++ " deleted"⟩ ∧
    TestPy.create_user user = ⟨user, "User created"⟩ :=
  ⟨rfl, rfl, rfl, rfl⟩

/-- C10 witness: the four handlers at concrete arguments. -/
theorem testpy_mutating_handlers_pure_witness :
    TestPy.delete_item 123 = ⟨"Item " ++ toString (123 : Int) ++ " deleted"⟩ ∧
    TestPy.create_user ⟨"bob", "bob@example.com", none⟩
      = ⟨⟨"bob", "bob@example.com", none⟩, "User created"⟩ :=
  ⟨(testpy_mutating_handlers_pure ⟨"x", 1, none⟩ 123
      ⟨"bob", "bob@example.com", none⟩).2.2.1,
   (testpy_mutating_handlers_pure ⟨"x", 1, none⟩ 123
      ⟨"bob", "bob@example.com", none⟩).2.2.2⟩
